import Mathlib

/-!
Shallow embedding of the ElectricMaple XR streaming core (client stream
client, server GStreamer pipeline probes, connection state machine) and
proofs about it.

Conventions:
* C integers are modelled by `Int`/`Nat`.
* C float computations (`gfloat`, `1.5f`) are modelled by exact rationals
  (`Rat`); conversion of a float to an integer type truncates toward zero,
  modelled by `ratTruncInt`.
* Pose/quaternion components are only ever copied, never computed with, so
  their carrier type is irrelevant; we use `Int`.
* Fields that in C are zero-initialised by `calloc` and only conditionally
  assigned are modelled by `Option` where the claims are about whether the
  assignment happened (`none` = never assigned).
* Opaque external byte payloads are `List Nat`.
-/

/-- Truncation toward zero of a rational, as C float-to-int conversion does. -/
def ratTruncInt (q : Rat) : Int := q.num.tdiv (q.den : Int)

/-- `time_s_to_ns` from the monado os time helpers: seconds to nanoseconds. -/
def time_s_to_ns (s : Int) : Int := s * 1000000000

/-- `time_ns_to_ms_f` from the monado os time helpers: nanoseconds to
milliseconds as a float (modelled exactly by a rational). -/
def time_ns_to_ms_f (ns : Int) : Rat := (ns : Rat) / 1000000

/-! ## Protobuf data model (electricmaple.pb.h, relevant fields) -/

structure EmVec3 where
  x : Int
  y : Int
  z : Int
deriving DecidableEq, Repr

structure EmQuaternion where
  x : Int
  y : Int
  z : Int
  w : Int
deriving DecidableEq, Repr

structure EmPose where
  has_orientation : Bool
  orientation : EmQuaternion
  has_position : Bool
  position : EmVec3
deriving DecidableEq, Repr

structure EmFrameData where
  frame_sequence_id : Int
  has_P_localSpace_view0 : Bool
  P_localSpace_view0 : EmPose
  has_P_localSpace_view1 : Bool
  P_localSpace_view1 : EmPose
  render_begin_time : Int
  frame_push_time : Int
  frame_push_clock_time : Int
  server_system_clock_pipeline_clock_offset : Int
deriving DecidableEq, Repr

structure DownMessage where
  has_frame_data : Bool
  frame_data : EmFrameData
deriving DecidableEq, Repr

def em_proto_Vec3_init_default : EmVec3 := ⟨0, 0, 0⟩

def em_proto_Quaternion_init_default : EmQuaternion := ⟨0, 0, 0, 0⟩

def em_proto_Pose_init_default : EmPose :=
  ⟨false, em_proto_Quaternion_init_default, false, em_proto_Vec3_init_default⟩

def em_proto_FrameData_init_default : EmFrameData :=
  ⟨0, false, em_proto_Pose_init_default, false, em_proto_Pose_init_default, 0, 0, 0, 0⟩

/-- `em_proto_DownMessage_init_default`: all-zero message. -/
def em_proto_DownMessage_init_default : DownMessage :=
  ⟨false, em_proto_FrameData_init_default⟩

/-! ## OpenXR pose types and the conversion helpers of em_stream_client.c -/

structure XrQuaternionf where
  x : Int
  y : Int
  z : Int
  w : Int
deriving DecidableEq, Repr

structure XrVector3f where
  x : Int
  y : Int
  z : Int
deriving DecidableEq, Repr

structure XrPosef where
  orientation : XrQuaternionf
  position : XrVector3f
deriving DecidableEq, Repr

def quat_to_openxr (q : EmQuaternion) : XrQuaternionf := ⟨q.x, q.y, q.z, q.w⟩

def vec3_to_openxr (v : EmVec3) : XrVector3f := ⟨v.x, v.y, v.z⟩

def pose_to_openxr (p : EmPose) : XrPosef :=
  ⟨if p.has_orientation then quat_to_openxr p.orientation else ⟨0, 0, 0, 1⟩,
   if p.has_position then vec3_to_openxr p.position else ⟨0, 0, 0⟩⟩

/-! ## GStreamer buffers as seen by the client (custom meta attached after
the RTP depayloader) -/

/-- The "down-message" custom meta attached by `rtpdepay_src_pad_probe`:
the raw protobuf payload plus the frame receive timestamp. -/
structure GstCustomMeta where
  protobuf : List Nat
  frame_receive_time : Int
deriving DecidableEq, Repr

/-- A decoded video buffer as it reaches the appsink: carries the optional
custom meta. -/
structure GstBufferClient where
  down_message_meta : Option GstCustomMeta
deriving DecidableEq, Repr

/-! ## EmStreamClient state (struct _EmStreamClient, relevant fields) -/

/-- A sample stored by `on_new_sample_cb` (GstSample: buffer). -/
structure StoredSample where
  buffer : GstBufferClient
deriving DecidableEq, Repr

structure EmStreamClient where
  sample : Option StoredSample
  sample_decode_end_time : Int
  received_first_frame : Bool
  skipped_frames : Nat
  last_down_msg : DownMessage
  latency_collection : List Int
  latency_calculation_window : Int
  latency_last_time_query : Int
  average_latency : Int
  max_jitter_latency : Int
deriving DecidableEq, Repr

/-- Thresholds from em_stream_client.c lines 46-47. -/
def EM_NO_DOWN_MSG_FALLBACK_TIMEOUT_SECS : Int := 1

def EM_NO_DOWN_MSG_FALLBACK_SKIPPED_FRAME_THRESHOLD : Nat := 10

/-- `em_stream_client_init` (plus the `calloc` zeroing in
`em_stream_client_new`): the initial state.  `init_time` is the
`os_monotonic_get_ns()` value sampled for `latency_last_time_query`. -/
def em_stream_client_init (init_time : Int) : EmStreamClient :=
  { sample := none
    sample_decode_end_time := 0
    received_first_frame := false
    skipped_frames := 0
    last_down_msg := em_proto_DownMessage_init_default
    latency_collection := []
    latency_calculation_window := time_s_to_ns 3
    latency_last_time_query := init_time
    average_latency := 0
    max_jitter_latency := 0 }

/-- `on_new_sample_cb`: stores the newly decoded sample.  `drop_frame` is
initialised to `false`; the statement that would set it to `true` for a
buffer without a down-message meta is commented out in the source, and the
two threshold checks only ever reset it to `false`, so no frame is ever
dropped here. -/
def on_new_sample_cb (sc : EmStreamClient) (buffer : GstBufferClient)
    (decode_end_time : Int) : EmStreamClient :=
  let drop_frame := false
  let last_frame_diff_ns := decode_end_time - sc.sample_decode_end_time
  let drop_frame :=
    if last_frame_diff_ns ≥ time_s_to_ns EM_NO_DOWN_MSG_FALLBACK_TIMEOUT_SECS then false
    else drop_frame
  let skipped_frames_threshold_reached :=
    sc.skipped_frames ≥ EM_NO_DOWN_MSG_FALLBACK_SKIPPED_FRAME_THRESHOLD
  let drop_frame := if skipped_frames_threshold_reached then false else drop_frame
  if drop_frame then sc
  else
    { sc with
      sample := some ⟨buffer⟩
      sample_decode_end_time := decode_end_time
      received_first_frame := true }

/-- `read_down_message_from_custom_meta`: returns the decoded message on
success, together with the frame receive time as written to the out
parameter (left at the caller's `0` when the meta is absent).  `pb_decode`
of the nanopb library is abstracted by the `decode` function parameter. -/
def read_down_message_from_custom_meta (decode : List Nat → Option DownMessage)
    (buffer : GstBufferClient) : Option DownMessage × Int :=
  match buffer.down_message_meta with
  | none => (none, 0)
  | some meta =>
    match decode meta.protobuf with
    | none => (none, meta.frame_receive_time)
    | some msg => (some msg, meta.frame_receive_time)

/-- `calculate_average_of_gint64`: arithmetic mean of the array, 0 if empty. -/
def calculate_average_of_gint64 (array : List Int) : Rat :=
  if array.length = 0 then 0
  else (array.sum : Rat) / (array.length : Rat)

/-- `em_stream_client_get_average_frame_latency`: returns the mean of the
latency window (gfloat mean truncated into an int64) and resets the window. -/
def em_stream_client_get_average_frame_latency (sc : EmStreamClient) :
    Int × EmStreamClient :=
  let ave_latency := ratTruncInt (calculate_average_of_gint64 sc.latency_collection)
  (ave_latency, { sc with latency_collection := [] })

/-- `em_stream_client_adjust_jitterbuffer`:
`max_jitter_latency = MAX(max_jitter_latency - 10, average_latency_ms * 1.5)`
(the float product is truncated into the `int` target). -/
def em_stream_client_adjust_jitterbuffer (sc : EmStreamClient) : EmStreamClient :=
  let target_jitter_latency : Int :=
    ratTruncInt (time_ns_to_ms_f sc.average_latency * (3 / 2 : Rat))
  { sc with max_jitter_latency := max (sc.max_jitter_latency - 10) target_jitter_latency }

/-- The sample handed to the caller (struct em_sample in gst_common.h).
`server_render_begin_time`/`server_push_time` are `none` when the code
leaves them unset (calloc zero, never assigned). -/
structure EmSample where
  have_poses : Bool
  pose0 : XrPosef
  pose1 : XrPosef
  frame_sequence_id : Int
  server_render_begin_time : Option Int
  server_push_time : Option Int
  client_receive_time : Int
  client_decode_time : Int
  client_render_begin_time : Int
deriving DecidableEq, Repr

/-- The zeroed `em_sample` produced by `calloc` in
`em_stream_client_try_pull_sample`. -/
def em_sample_calloc : EmSample :=
  { have_poses := false
    pose0 := ⟨⟨0, 0, 0, 0⟩, ⟨0, 0, 0⟩⟩
    pose1 := ⟨⟨0, 0, 0, 0⟩, ⟨0, 0, 0⟩⟩
    frame_sequence_id := 0
    server_render_begin_time := none
    server_push_time := none
    client_receive_time := 0
    client_decode_time := 0
    client_render_begin_time := 0 }

/-- Environment values read during one `em_stream_client_try_pull_sample`
call: the monotonic clock, the pipeline clock, the offset reported by
`em_connection_get_server_clock_offset` (external to this file's sources),
and the second monotonic read used for `client_render_begin_time`. -/
structure PullEnv where
  now_ns : Int
  current_time : Int
  server_clock_offset : Int
  render_begin_ns : Int
deriving DecidableEq, Repr

/-- `em_stream_client_try_pull_sample` (em_stream_client.c lines 954-1123).
Returns the produced sample (if any) and the updated state. -/
def em_stream_client_try_pull_sample (decode : List Nat → Option DownMessage)
    (sc : EmStreamClient) (env : PullEnv) : Option EmSample × EmStreamClient :=
  match sc.sample with
  | none =>
    (none, { sc with skipped_frames := sc.skipped_frames + 1 })
  | some s =>
    let decode_end_time := sc.sample_decode_end_time
    let sc := { sc with sample := none, skipped_frames := 0 }
    let read_result := read_down_message_from_custom_meta decode s.buffer
    let frame_receive_time := read_result.2
    let msg := read_result.1.getD sc.last_down_msg
    if msg.has_frame_data ∧ msg.frame_data.has_P_localSpace_view0 ∧
        msg.frame_data.has_P_localSpace_view1 then
      let latency := env.current_time - msg.frame_data.frame_push_clock_time
      let sc := { sc with latency_collection := sc.latency_collection ++ [latency] }
      let sc :=
        if env.now_ns - sc.latency_last_time_query > sc.latency_calculation_window then
          let r := em_stream_client_get_average_frame_latency sc
          let sc := { r.2 with latency_last_time_query := env.now_ns,
                               average_latency := r.1 }
          em_stream_client_adjust_jitterbuffer sc
        else sc
      let server_clock_offset :=
        if env.server_clock_offset = 0 then
          (env.now_ns - env.current_time) -
            msg.frame_data.server_system_clock_pipeline_clock_offset
        else env.server_clock_offset
      let ret : EmSample :=
        { em_sample_calloc with
          have_poses := true
          pose0 := pose_to_openxr msg.frame_data.P_localSpace_view0
          pose1 := pose_to_openxr msg.frame_data.P_localSpace_view1
          frame_sequence_id := msg.frame_data.frame_sequence_id
          server_render_begin_time :=
            if server_clock_offset ≠ 0 then
              some (server_clock_offset + msg.frame_data.render_begin_time)
            else none
          server_push_time :=
            if server_clock_offset ≠ 0 then
              some (server_clock_offset + msg.frame_data.frame_push_time)
            else none
          client_receive_time := frame_receive_time
          client_decode_time := decode_end_time
          client_render_begin_time := env.render_begin_ns }
      (some ret, { sc with last_down_msg := msg })
    else
      let ret : EmSample :=
        { em_sample_calloc with client_render_begin_time := env.render_begin_ns }
      (some ret, sc)

/-! ## Client-side RTP depayloader probes (em_stream_client.c lines 481-575)

The one-slot preserved-metadata register `preserved_metadata_struct_buf`
lives in `_EmStreamClient`; we model it as a separate small state so the
probe functions can be stated without threading the whole stream-client
state (the probes touch no other field). -/

/-- An RTP packet as seen at a payloader/depayloader pad: the optional
two-bytes header extension payload (extension id 1). -/
structure RtpPacket where
  extension_data : Option (List Nat)
deriving DecidableEq, Repr

/-- The receive-side one-slot register (`GstBuffer *preserved_metadata_struct_buf`),
`none` = NULL. -/
structure MetadataPreservation where
  preserved_metadata_struct_buf : Option (List Nat)
deriving DecidableEq, Repr

/-- Register state after `em_stream_client_init`: NULL. -/
def metadata_preservation_init : MetadataPreservation := ⟨none⟩

/-- `rtpdepay_sink_pad_probe`: if the register is still occupied ("is not
yet consumed"), the probe returns immediately, ignoring the incoming
packet; otherwise the packet's extension payload (if present) is copied
into the register.  The map/alloc failure early-returns of the source also
leave the register unchanged and are covered by the identity branches. -/
def rtpdepay_sink_pad_probe (sc : MetadataPreservation) (packet : RtpPacket) :
    MetadataPreservation :=
  if sc.preserved_metadata_struct_buf.isSome then sc
  else
    match packet.extension_data with
    | none => sc
    | some payload => { sc with preserved_metadata_struct_buf := some payload }

/-- `rtpdepay_src_pad_probe`: attaches the register contents (with the
frame receive time) to the decoded buffer as the "down-message" custom
meta and clears the register; when adding the meta fails the register is
still cleared (`add_meta_ok = false`). -/
def rtpdepay_src_pad_probe (sc : MetadataPreservation) (buffer : GstBufferClient)
    (frame_receive_time : Int) (add_meta_ok : Bool) :
    GstBufferClient × MetadataPreservation :=
  match sc.preserved_metadata_struct_buf with
  | none => (buffer, sc)
  | some payload =>
    if add_meta_ok then
      ({ buffer with down_message_meta := some ⟨payload, frame_receive_time⟩ },
       { sc with preserved_metadata_struct_buf := none })
    else
      (buffer, { sc with preserved_metadata_struct_buf := none })

/-! ## Server-side GStreamer pipeline (ems_gstreamer_pipeline.c) -/

def RTP_TWOBYTES_HDR_EXT_ID : Nat := 1

def RTP_TWOBYTES_HDR_EXT_MAX_SIZE : Nat := 255

/-- A buffer entering the RTP payloader on the server, possibly carrying
the "down-message" custom meta (the protobuf bytes). -/
structure GstBufferServer where
  down_message_meta : Option (List Nat)
deriving DecidableEq, Repr

/-- struct ems_gstreamer_pipeline, relevant fields: the single pending
metadata register `preserved_metadata` and its size (the size is the
length of the list). -/
structure EmsGstreamerPipeline where
  preserved_metadata : List Nat
deriving DecidableEq, Repr

/-- `U_TYPED_CALLOC` zeroing in `ems_gstreamer_pipeline_create`:
`preserved_metadata_size = 0`. -/
def ems_gstreamer_pipeline_calloc : EmsGstreamerPipeline := ⟨[]⟩

/-- `rtppay_sink_pad_probe`: when the buffer carries a down-message custom
meta, its bytes are memcpy'd over the register (overwrite, latest wins);
the early-return failure paths (no meta, unreadable struct, map failure)
leave the register unchanged. -/
def rtppay_sink_pad_probe (egp : EmsGstreamerPipeline) (buffer : GstBufferServer) :
    EmsGstreamerPipeline :=
  match buffer.down_message_meta with
  | none => egp
  | some bytes => { egp with preserved_metadata := bytes }

/-- `rtppay_src_pad_probe`: adds the register contents as the two-bytes
RTP header extension of the outgoing packet (`add_ok = false` models
`gst_rtp_buffer_add_extension_twobytes_header` failing, an early return).
Note the register is NOT cleared in either branch. -/
def rtppay_src_pad_probe (egp : EmsGstreamerPipeline) (buffer : RtpPacket)
    (add_ok : Bool) : RtpPacket × EmsGstreamerPipeline :=
  if add_ok then
    ({ buffer with extension_data := some egp.preserved_metadata }, egp)
  else
    (buffer, egp)

/-! ## DownMessage encoding on the server
(`ems_gstreamer_pipeline_encode_down_msg`)

nanopb's `pb_encode` is external to this repository; it is modelled
relative to an abstract total encoding function `enc` giving the protobuf
wire bytes of a message: encoding into a fixed-capacity output stream
succeeds iff the wire bytes fit, and then `bytes_written` is their length.
The nanopb-generated compile-time constant `em_proto_DownMessage_size`
has an unknown numeric value here, so it is passed as a parameter. -/

structure PbOStream where
  max_size : Nat
  bytes_written : Nat
  buf : List Nat
deriving DecidableEq, Repr

/-- `pb_ostream_from_buffer(buf, sizeof(buf))`. -/
def pb_ostream_from_buffer (cap : Nat) : PbOStream := ⟨cap, 0, []⟩

/-- Model of nanopb `pb_encode` (external library). -/
def pb_encode (enc : DownMessage → List Nat) (os : PbOStream) (msg : DownMessage) :
    Option PbOStream :=
  let payload := enc msg
  if payload.length ≤ os.max_size then
    some { os with bytes_written := payload.length, buf := payload }
  else
    none

/-- `ems_gstreamer_pipeline_encode_down_msg`: NULL (`none`) when `pb_encode`
fails, otherwise `g_bytes_new(buf, os.bytes_written)`. -/
def ems_gstreamer_pipeline_encode_down_msg (size : Nat)
    (enc : DownMessage → List Nat) (msg : DownMessage) : Option (List Nat) :=
  let os := pb_ostream_from_buffer size
  match pb_encode enc os msg with
  | none => none
  | some os2 => some (os2.buf.take os2.bytes_written)

/-! ## Connection state machine (em_connection.c)

The `em_status` enum values used by em_connection.c (the enum header is
not among the sources; the constructor set is exactly the set of constants
the code uses). -/

inductive EmStatus
  | EM_STATUS_IDLE_NOT_CONNECTED
  | EM_STATUS_CONNECTING
  | EM_STATUS_NEGOTIATING
  | EM_STATUS_CONNECTED_NO_DATA
  | EM_STATUS_CONNECTED
  | EM_STATUS_WEBSOCKET_FAILED
  | EM_STATUS_DISCONNECTED_ERROR
  | EM_STATUS_DISCONNECTED_REMOTE_CLOSE
deriving DecidableEq, Repr

/-- The GObject signals emitted by EmConnection that matter to the claims. -/
inductive EmSignal
  | websocket_connected
  | websocket_failed
  | connected
  | on_need_pipeline
  | on_drop_pipeline
deriving DecidableEq, Repr

/-- struct _EmConnection: pointer fields are modelled by `Bool`
(non-NULL?). -/
structure EmConnection where
  ws_cancel : Bool
  ws : Bool
  pipeline : Bool
  webrtcbin : Bool
  datachannel : Bool
  status : EmStatus
deriving DecidableEq, Repr

/-- `em_connection_init` plus GObject zero-initialisation: only the
cancellable exists; `em_status` 0 is the idle state. -/
def em_connection_init : EmConnection :=
  { ws_cancel := true
    ws := false
    pipeline := false
    webrtcbin := false
    datachannel := false
    status := .EM_STATUS_IDLE_NOT_CONNECTED }

/-- `em_conn_update_status`: no-op (besides a log) when the status is
unchanged. -/
def em_conn_update_status (em_conn : EmConnection) (status : EmStatus) : EmConnection :=
  if status = em_conn.status then em_conn
  else { em_conn with status := status }

/-- `em_conn_disconnect_internal`: cancel+clear the cancellable, stop the
pipeline and emit on-drop-pipeline if one was handed out, close+clear the
websocket, clear webrtcbin/datachannel/pipeline, update the status.
Returns the new state and the emitted signals. -/
def em_conn_disconnect_internal (em_conn : EmConnection) (status : EmStatus) :
    EmConnection × List EmSignal :=
  let em_conn1 :=
    if em_conn.ws_cancel then { em_conn with ws_cancel := false } else em_conn
  let signals :=
    if em_conn1.pipeline then [EmSignal.on_drop_pipeline] else []
  let em_conn2 :=
    { em_conn1 with ws := false, webrtcbin := false, datachannel := false,
                    pipeline := false }
  (em_conn_update_status em_conn2 status, signals)

/-- `em_connection_disconnect`. -/
def em_connection_disconnect (em_conn : EmConnection) : EmConnection × List EmSignal :=
  em_conn_disconnect_internal em_conn .EM_STATUS_IDLE_NOT_CONNECTED

/-- `em_connection_send_bytes`: `false` immediately when not in
`EM_STATUS_CONNECTED`; otherwise sends over the data channel
(`USE_WEBRTC`, result `channel_send_ok`) or the websocket (always TRUE).
The connection state is returned unchanged: the function never writes to
it. -/
def em_connection_send_bytes (useWebrtc : Bool) (channel_send_ok : Bool)
    (em_conn : EmConnection) : Bool × EmConnection :=
  if em_conn.status ≠ EmStatus.EM_STATUS_CONNECTED then
    (false, em_conn)
  else if useWebrtc then
    (channel_send_ok, em_conn)
  else
    (true, em_conn)

/-- `em_connection_set_pipeline`: adopts the pipeline; under `USE_WEBRTC`
also moves to NEGOTIATING and looks up the webrtcbin. -/
def em_connection_set_pipeline (useWebrtc : Bool) (em_conn : EmConnection) :
    EmConnection :=
  let em_conn := { em_conn with pipeline := true }
  if useWebrtc then
    let em_conn := em_conn_update_status em_conn .EM_STATUS_NEGOTIATING
    { em_conn with webrtcbin := true }
  else
    em_conn

/-- `em_conn_websocket_connected_cb`, success path: stores the websocket,
and - only when built WITHOUT `USE_WEBRTC` - directly assigns
`status = EM_STATUS_CONNECTED`; then emits websocket-connected and
on-need-pipeline; if the handler supplied no pipeline the connection is
torn down again. -/
def em_conn_websocket_connected_cb_success (useWebrtc : Bool)
    (provides_pipeline : Bool) (em_conn : EmConnection) :
    EmConnection × List EmSignal :=
  let em_conn := { em_conn with ws := true }
  let em_conn :=
    if useWebrtc then em_conn
    else { em_conn with status := .EM_STATUS_CONNECTED }
  if provides_pipeline then
    (em_connection_set_pipeline useWebrtc em_conn,
     [EmSignal.websocket_connected, EmSignal.on_need_pipeline])
  else
    let r := em_connection_disconnect em_conn
    (r.1, [EmSignal.websocket_connected, EmSignal.on_need_pipeline] ++ r.2)

/-- `em_conn_websocket_connected_cb`, error path (also taken when the
attempt was cancelled): emits websocket-failed and records the status. -/
def em_conn_websocket_connected_cb_failure (em_conn : EmConnection) :
    EmConnection × List EmSignal :=
  (em_conn_update_status em_conn .EM_STATUS_WEBSOCKET_FAILED,
   [EmSignal.websocket_failed])

/-- `em_conn_connect_internal`: disconnect, recreate/reset the
cancellable, start the async websocket connect, update the status. -/
def em_conn_connect_internal (em_conn : EmConnection) (status : EmStatus) :
    EmConnection × List EmSignal :=
  let r := em_connection_disconnect em_conn
  let em_conn := { r.1 with ws_cancel := true }
  (em_conn_update_status em_conn status, r.2)

/-- `em_connection_connect`. -/
def em_connection_connect (em_conn : EmConnection) : EmConnection × List EmSignal :=
  em_conn_connect_internal em_conn .EM_STATUS_CONNECTING

/-- `em_conn_webrtc_on_data_channel_cb`: stores the data channel, moves to
CONNECTED, emits the connected signal. -/
def em_conn_webrtc_on_data_channel_cb (em_conn : EmConnection) :
    EmConnection × List EmSignal :=
  let em_conn := { em_conn with datachannel := true }
  (em_conn_update_status em_conn .EM_STATUS_CONNECTED, [EmSignal.connected])

/-- `em_conn_data_channel_error_cb`. -/
def em_conn_data_channel_error_cb (em_conn : EmConnection) :
    EmConnection × List EmSignal :=
  em_conn_disconnect_internal em_conn .EM_STATUS_DISCONNECTED_ERROR

/-- `em_conn_data_channel_close_cb`. -/
def em_conn_data_channel_close_cb (em_conn : EmConnection) :
    EmConnection × List EmSignal :=
  em_conn_disconnect_internal em_conn .EM_STATUS_DISCONNECTED_REMOTE_CLOSE

/-! ## Event-level semantics of the connection state machine

The callbacks above are driven by the soup/GStreamer event loop.  To state
reachability ("in every reachable execution ...") we wrap them in an
explicit event step function.  Guards encode when the external stack can
deliver an event:
* the websocket connect callback fires once per `connect()` call
  (`connect_pending`), and its success path requires the attempt not to
  have been cancelled (`ws_cancel` still set);
* an SDP offer can only be processed once the websocket is up and
  `em_conn->webrtcbin` is set (em_conn_on_ws_message_cb dereferences it);
* a remotely announced WebRTC data channel (on-data-channel) can only
  appear after the SDP offer/answer exchange has happened on this very
  connection, and the callback asserts the stored channel is NULL;
* data-channel error/close callbacks require a stored data channel.

`handshake_flowed` records whether at least one application-level
handshake message (an SDP offer processed, answer sent) has flowed. -/

structure ConnSM where
  conn : EmConnection
  connect_pending : Bool
  handshake_flowed : Bool
deriving DecidableEq, Repr

/-- Initial machine: fresh EmConnection, no connect in flight, no
handshake traffic yet. -/
def conn_init : ConnSM :=
  { conn := em_connection_init
    connect_pending := false
    handshake_flowed := false }

inductive ConnEvent
  | callConnect
  | wsConnectSuccess (provides_pipeline : Bool)
  | wsConnectFailure
  | wsOfferMessage
  | onDataChannel
  | dataChannelError
  | dataChannelClose
  | callDisconnect
deriving DecidableEq, Repr

/-- One event-loop step; `none` when the event cannot be delivered in the
given state. -/
def conn_step (useWebrtc : Bool) (s : ConnSM) (e : ConnEvent) : Option ConnSM :=
  match e with
  | .callConnect =>
    some { conn := (em_connection_connect s.conn).1
           connect_pending := true
           handshake_flowed := false }
  | .wsConnectSuccess provides_pipeline =>
    if s.connect_pending ∧ s.conn.ws_cancel then
      some { s with
             conn := (em_conn_websocket_connected_cb_success useWebrtc
                        provides_pipeline s.conn).1
             connect_pending := false }
    else none
  | .wsConnectFailure =>
    if s.connect_pending then
      some { s with
             conn := (em_conn_websocket_connected_cb_failure s.conn).1
             connect_pending := false }
    else none
  | .wsOfferMessage =>
    if s.conn.ws ∧ s.conn.webrtcbin then
      some { s with handshake_flowed := true }
    else none
  | .onDataChannel =>
    if useWebrtc ∧ s.conn.webrtcbin ∧ s.handshake_flowed ∧ ¬s.conn.datachannel then
      some { s with conn := (em_conn_webrtc_on_data_channel_cb s.conn).1 }
    else none
  | .dataChannelError =>
    if s.conn.datachannel then
      some { s with conn := (em_conn_data_channel_error_cb s.conn).1 }
    else none
  | .dataChannelClose =>
    if s.conn.datachannel then
      some { s with conn := (em_conn_data_channel_close_cb s.conn).1 }
    else none
  | .callDisconnect =>
    some { s with conn := (em_connection_disconnect s.conn).1 }

/-- States reachable from `conn_init` by delivered events. -/
inductive ConnReachable (useWebrtc : Bool) : ConnSM → Prop
  | init : ConnReachable useWebrtc conn_init
  | step (s : ConnSM) (e : ConnEvent) (s2 : ConnSM) :
      ConnReachable useWebrtc s → conn_step useWebrtc s e = some s2 →
      ConnReachable useWebrtc s2

/-- Run a list of events from a state, ignoring undeliverable ones would be
wrong - instead the run is partial: it stops (`none`) when an event's
guard fails, so a successful run certifies every event was deliverable. -/
def conn_run (useWebrtc : Bool) (s : ConnSM) : List ConnEvent → Option ConnSM
  | [] => some s
  | e :: rest =>
    match conn_step useWebrtc s e with
    | none => none
    | some s2 => conn_run useWebrtc s2 rest

/-! ## Up message emission (em_remote_experience.cpp) -/

/-- em_proto_UpMessage, relevant fields: the message id and the payload
tags of the tagged union. -/
structure UpMessage where
  up_message_id : Int
  has_tracking : Bool
  has_frame : Bool
deriving DecidableEq, Repr

/-- Two's-complement wraparound of a signed 64-bit integer: the unique
value in `[-2^63, 2^63)` congruent to `x` modulo `2^64`.  C++
`std::atomic_int64_t` fetch-add has exactly these wrapping semantics. -/
def int64_wrap (x : Int) : Int := (x + 2 ^ 63) % 2 ^ 64 - 2 ^ 63

/-- struct _EmRemoteExperience, relevant field: the up-message id counter
`std::atomic_int64_t nextUpMessage{1}`.  The carrier is `Int`, kept inside
the int64 range by `int64_wrap` at every increment. -/
structure EmRemoteExperience where
  nextUpMessage : Int
deriving DecidableEq, Repr

def em_remote_experience_new : EmRemoteExperience := ⟨1⟩

/-- `em_remote_experience_emit_upmessage`: stamps the message with
`nextUpMessage++` - an int64 fetch-and-increment, so the stored counter
wraps from `2^63 - 1` to `-2^63` - then encodes and sends it.  The
encode/send tail (whose boolean result does not affect the id assignment)
is omitted. -/
def em_remote_experience_emit_upmessage (exp : EmRemoteExperience)
    (upMessage : UpMessage) : UpMessage × EmRemoteExperience :=
  let message_id := exp.nextUpMessage
  ({ upMessage with up_message_id := message_id },
   { exp with nextUpMessage := int64_wrap (exp.nextUpMessage + 1) })

/-- Emitting a whole sequence of messages, returning the stamped messages
in emission order. -/
def em_remote_experience_emit_sequence (exp : EmRemoteExperience) :
    List UpMessage → List UpMessage × EmRemoteExperience
  | [] => ([], exp)
  | m :: rest =>
    let r := em_remote_experience_emit_upmessage exp m
    let r2 := em_remote_experience_emit_sequence r.2 rest
    (r.1 :: r2.1, r2.2)

/-- A payload-less UpMessage used in concrete emission sequences. -/
def c9_msg : UpMessage := ⟨0, false, false⟩

/-! ## Claim C2 - send-side pending metadata register -/

/-- Claim C2, counterexample: after registering metadata `[7, 8]` and
flushing one media unit (which carries it), a second unit flushed with no
new registration still carries `[7, 8]` - it is NOT sent without metadata,
because `rtppay_src_pad_probe` never clears the register. -/
theorem rtppay_pending_register_not_cleared_counterexample :
    (rtppay_src_pad_probe
        (rtppay_src_pad_probe (rtppay_sink_pad_probe ems_gstreamer_pipeline_calloc ⟨some [7, 8]⟩)
          ⟨none⟩ true).2 ⟨none⟩ true).1.extension_data = some [7, 8] ∧
    some [7, 8] ≠ (none : Option (List Nat)) := by decide

/-- Claim C2, amended: the pending-metadata register is overwritten with
the latest encoded message at registration time, and at flush the
register's contents are copied into the unit's side channel - but the
register is NOT cleared, so every later unit that flushes without a new
registration carries the previously registered metadata again. -/
theorem rtppay_pending_register_latest_wins_not_cleared
    (egp : EmsGstreamerPipeline) (bytes : List Nat) (pkt : RtpPacket) :
    (rtppay_sink_pad_probe egp ⟨some bytes⟩).preserved_metadata = bytes ∧
    (rtppay_src_pad_probe egp pkt true).1.extension_data = some egp.preserved_metadata ∧
    (rtppay_src_pad_probe egp pkt true).2 = egp := by
  refine ⟨rfl, ?_, ?_⟩ <;> simp [rtppay_src_pad_probe]

/-! ## Claim C3 - receive-side preserved metadata register -/

/-- Claim C3, counterexample: with `[1]` still unconsumed in the register,
a packet carrying metadata `[2]` arrives; afterwards the register still
holds the OLDER `[1]`, not the newer `[2]` - `rtpdepay_sink_pad_probe`
returns early when the register is occupied, dropping the newer message. -/
theorem rtpdepay_preserved_register_drops_newer_counterexample :
    (rtpdepay_sink_pad_probe (rtpdepay_sink_pad_probe metadata_preservation_init ⟨some [1]⟩)
        ⟨some [2]⟩).preserved_metadata_struct_buf = some [1] ∧
    some [1] ≠ (some [2] : Option (List Nat)) := by decide

/-- Claim C3, amended: when a metadata message arrives from the side
channel while the one-slot register is already occupied, the INCOMING
(newer) message is dropped and the register keeps the older entry; the
older entry stays until a media unit consumes it in
`rtpdepay_src_pad_probe`, which attaches it and clears the register. -/
theorem rtpdepay_preserved_register_keeps_older
    (buf : List Nat) (pkt : RtpPacket) (b : GstBufferClient) (t : Int) :
    rtpdepay_sink_pad_probe ⟨some buf⟩ pkt = ⟨some buf⟩ ∧
    (rtpdepay_src_pad_probe ⟨some buf⟩ b t true).2.preserved_metadata_struct_buf = none ∧
    (rtpdepay_src_pad_probe ⟨some buf⟩ b t true).1.down_message_meta = some ⟨buf, t⟩ := by
  refine ⟨?_, rfl, rfl⟩
  simp [rtpdepay_sink_pad_probe]

/-! ## Claim C5 - send only when connected -/

/-- Claim C5: `em_connection_send_bytes` succeeds only in
`EM_STATUS_CONNECTED`; in every other state it returns `false` without
any fatal failure and leaves the connection state unchanged. -/
theorem em_connection_send_bytes_only_when_connected
    (useWebrtc channel_send_ok : Bool) (em_conn : EmConnection)
    (h : em_conn.status ≠ EmStatus.EM_STATUS_CONNECTED) :
    em_connection_send_bytes useWebrtc channel_send_ok em_conn = (false, em_conn) := by
  simp [em_connection_send_bytes, h]

/-- Witness for C5 at a concrete non-connected state. -/
theorem em_connection_send_bytes_only_when_connected_witness :
    em_connection_init.status ≠ EmStatus.EM_STATUS_CONNECTED ∧
    em_connection_send_bytes true true em_connection_init = (false, em_connection_init) :=
  ⟨by decide,
   em_connection_send_bytes_only_when_connected true true em_connection_init (by decide)⟩

/-! ## Claim C8 - disconnect is idempotent -/

/-- Claim C8: `em_connection_disconnect` is idempotent from any state -
the second call produces the same terminal state and emits no signals,
and across both calls the on-drop-pipeline signal is emitted exactly once
if a pipeline had been handed out, otherwise not at all. -/
theorem em_connection_disconnect_idempotent (em_conn : EmConnection) :
    (em_connection_disconnect (em_connection_disconnect em_conn).1).1 =
      (em_connection_disconnect em_conn).1 ∧
    (em_connection_disconnect (em_connection_disconnect em_conn).1).2 = [] ∧
    ((em_connection_disconnect em_conn).2 ++
        (em_connection_disconnect (em_connection_disconnect em_conn).1).2).count
      EmSignal.on_drop_pipeline = (if em_conn.pipeline then 1 else 0) := by
  rcases em_conn with ⟨wc, ws, pl, wb, dc, st⟩
  cases wc <;> cases ws <;> cases pl <;> cases wb <;> cases dc <;> cases st <;> decide

/-! ## Claim C9 - strictly increasing up-message ids -/

theorem int64_wrap_eq_self (x : Int) (h1 : -(2 ^ 63) ≤ x) (h2 : x < 2 ^ 63) :
    int64_wrap x = x := by
  unfold int64_wrap
  omega

theorem int64_wrap_range (x : Int) :
    -(2 ^ 63) ≤ int64_wrap x ∧ int64_wrap x < 2 ^ 63 := by
  unfold int64_wrap
  omega

theorem int64_wrap_add_left (x y : Int) :
    int64_wrap (int64_wrap x + y) = int64_wrap (x + y) := by
  unfold int64_wrap
  omega

/-- The counter after emitting `msgs` from an in-range state is the
(wrapped) start value plus the number of messages. -/
theorem emit_sequence_counter (msgs : List UpMessage) :
    ∀ (exp : EmRemoteExperience), -(2 ^ 63) ≤ exp.nextUpMessage →
      exp.nextUpMessage < 2 ^ 63 →
      (em_remote_experience_emit_sequence exp msgs).2.nextUpMessage =
        int64_wrap (exp.nextUpMessage + msgs.length) := by
  induction msgs with
  | nil =>
    intro exp h1 h2
    simp [em_remote_experience_emit_sequence, int64_wrap_eq_self _ h1 h2]
  | cons a rest ih =>
    intro exp h1 h2
    simp only [em_remote_experience_emit_sequence, em_remote_experience_emit_upmessage]
    have hr := int64_wrap_range (exp.nextUpMessage + 1)
    have := ih { nextUpMessage := int64_wrap (exp.nextUpMessage + 1) } hr.1 hr.2
    simp only at this
    rw [this, int64_wrap_add_left]
    simp only [List.length_cons]
    push_cast
    ring_nf

/-- Every message stamped while emitting `msgs` from state `exp` gets an
id at least `exp.nextUpMessage`, provided the counter never overflows
int64 during the run. -/
theorem emit_sequence_id_ge (msgs : List UpMessage) :
    ∀ (exp : EmRemoteExperience), -(2 ^ 63) ≤ exp.nextUpMessage →
      exp.nextUpMessage + msgs.length < 2 ^ 63 →
      ∀ m ∈ (em_remote_experience_emit_sequence exp msgs).1,
        exp.nextUpMessage ≤ m.up_message_id := by
  induction msgs with
  | nil => intro exp _ _ m hm; simp [em_remote_experience_emit_sequence] at hm
  | cons a rest ih =>
    intro exp hlo hhi m hm
    simp only [List.length_cons] at hhi
    push_cast at hhi
    simp only [em_remote_experience_emit_sequence, em_remote_experience_emit_upmessage,
      List.mem_cons] at hm
    rcases hm with h | h
    · subst h; simp
    · have hw : int64_wrap (exp.nextUpMessage + 1) = exp.nextUpMessage + 1 :=
        int64_wrap_eq_self _ (by omega) (by omega)
      rw [hw] at h
      have := ih { nextUpMessage := exp.nextUpMessage + 1 }
        (by show -(2 ^ 63) ≤ exp.nextUpMessage + 1; omega)
        (by show exp.nextUpMessage + 1 + (rest.length : Int) < 2 ^ 63; omega) m h
      simp only at this
      omega

/-- Claim C9, counterexample: the id counter is a wrapping int64.  After
`2^63 - 2` messages from the client's initial state the counter reaches
`INT64_MAX = 2^63 - 1`; emitting two further messages from that state
assigns ids `2^63 - 1` and then `-2^63` - NOT strictly increasing, so a
long enough emission sequence of the client sender violates the claim
(and ids are eventually reused as the counter cycles). -/
theorem upmessage_id_wraps_at_int64_max :
    (em_remote_experience_emit_sequence em_remote_experience_new
        (List.replicate (2 ^ 63 - 2) c9_msg)).2.nextUpMessage = 2 ^ 63 - 1 ∧
    ¬ ((em_remote_experience_emit_sequence ⟨2 ^ 63 - 1⟩ [c9_msg, c9_msg]).1.Pairwise
        (fun a b => a.up_message_id < b.up_message_id)) := by
  constructor
  · rw [emit_sequence_counter _ em_remote_experience_new
      (by norm_num [em_remote_experience_new]) (by norm_num [em_remote_experience_new])]
    rw [List.length_replicate]
    norm_num [em_remote_experience_new, int64_wrap]
  · decide

/-- Claim C9, amended: as long as the int64 counter does not overflow -
for any emission sequence during which the counter stays below `2^63`, in
particular the first `2^63 - 1` messages from the client's initial
counter value 1 - the ids assigned at send time are strictly increasing:
every message's id is greater than every previously assigned id, so no id
is reused within such a sequence. -/
theorem upmessage_ids_strictly_increasing_without_overflow
    (exp : EmRemoteExperience) (msgs : List UpMessage)
    (hlo : -(2 ^ 63) ≤ exp.nextUpMessage)
    (hhi : exp.nextUpMessage + msgs.length < 2 ^ 63) :
    (em_remote_experience_emit_sequence exp msgs).1.Pairwise
      (fun a b => a.up_message_id < b.up_message_id) := by
  induction msgs generalizing exp with
  | nil => simp [em_remote_experience_emit_sequence]
  | cons a rest ih =>
    simp only [List.length_cons] at hhi
    push_cast at hhi
    simp only [em_remote_experience_emit_sequence, em_remote_experience_emit_upmessage,
      List.pairwise_cons]
    have hw : int64_wrap (exp.nextUpMessage + 1) = exp.nextUpMessage + 1 :=
      int64_wrap_eq_self _ (by omega) (by omega)
    constructor
    · intro b hb
      simp only [hw] at hb
      have := emit_sequence_id_ge rest { nextUpMessage := exp.nextUpMessage + 1 }
        (by show -(2 ^ 63) ≤ exp.nextUpMessage + 1; omega)
        (by show exp.nextUpMessage + 1 + (rest.length : Int) < 2 ^ 63; omega) b hb
      simp only at this ⊢
      omega
    · have := ih { nextUpMessage := int64_wrap (exp.nextUpMessage + 1) }
        (by show -(2 ^ 63) ≤ int64_wrap (exp.nextUpMessage + 1); rw [hw]; omega)
        (by show int64_wrap (exp.nextUpMessage + 1) + (rest.length : Int) < 2 ^ 63
            rw [hw]; omega)
      exact this

/-- Witness for the amended C9 at the client's initial counter and a
concrete three-message sequence. -/
theorem upmessage_ids_strictly_increasing_without_overflow_witness :
    (-(2 ^ 63) : Int) ≤ em_remote_experience_new.nextUpMessage ∧
    em_remote_experience_new.nextUpMessage +
      ([c9_msg, c9_msg, c9_msg] : List UpMessage).length < 2 ^ 63 ∧
    (em_remote_experience_emit_sequence em_remote_experience_new
        [c9_msg, c9_msg, c9_msg]).1.Pairwise
      (fun a b => a.up_message_id < b.up_message_id) :=
  ⟨by norm_num [em_remote_experience_new], by norm_num [em_remote_experience_new],
   upmessage_ids_strictly_increasing_without_overflow em_remote_experience_new
     [c9_msg, c9_msg, c9_msg] (by norm_num [em_remote_experience_new])
     (by norm_num [em_remote_experience_new])⟩

/-! ## Claim C10 - DownMessage encoding is all-or-nothing -/

/-- Claim C10: `ems_gstreamer_pipeline_encode_down_msg` returns NULL
exactly when the encoding does not fit the compile-time-sized buffer
(never a partial or truncated buffer), and on success the returned bytes
are exactly the encoding, of length `bytes_written ≤ size`. -/
theorem encode_down_msg_none_or_exact (size : Nat) (enc : DownMessage → List Nat)
    (msg : DownMessage) :
    (∀ b, ems_gstreamer_pipeline_encode_down_msg size enc msg = some b →
      b = enc msg ∧ b.length ≤ size) ∧
    (ems_gstreamer_pipeline_encode_down_msg size enc msg = none ↔
      size < (enc msg).length) := by
  constructor
  · intro b hb
    unfold ems_gstreamer_pipeline_encode_down_msg pb_encode pb_ostream_from_buffer at hb
    by_cases h : (enc msg).length ≤ size
    · simp [h] at hb
      subst hb
      simpa using h
    · simp [h] at hb
  · unfold ems_gstreamer_pipeline_encode_down_msg pb_encode pb_ostream_from_buffer
    by_cases h : (enc msg).length ≤ size
    · simp [h]
    · simp [h]; omega

/-- Witness for C10 at a concrete encoder and message. -/
theorem encode_down_msg_none_or_exact_witness :
    ([1, 2] : List Nat) =
      (fun _ : DownMessage => ([1, 2] : List Nat)) em_proto_DownMessage_init_default ∧
    ([1, 2] : List Nat).length ≤ 2 :=
  (encode_down_msg_none_or_exact 2 (fun _ => [1, 2])
      em_proto_DownMessage_init_default).1 [1, 2] (by decide)

/-! ## Claim C4 - latency-adaptive jitterbuffer control -/

/-- Claim C4: on every evaluation, the new `max_jitter_latency` is
`max(previous - 10, average_latency_ms * 1.5)` - so decreases are bounded
by 10 ms per evaluation while increases take effect immediately; with
previous = 200 ms and a 50 ms average (target 75 ms) the result is 190 ms,
not 75 ms; and the evaluation consumes the whole latency window
(arithmetic mean) and resets it. -/
theorem adjust_jitterbuffer_decay_bounded_growth_immediate (sc : EmStreamClient) :
    ((em_stream_client_adjust_jitterbuffer sc).max_jitter_latency =
      max (sc.max_jitter_latency - 10)
        (ratTruncInt (time_ns_to_ms_f sc.average_latency * (3 / 2 : Rat)))) ∧
    (sc.max_jitter_latency = 200 → sc.average_latency = 50000000 →
      (em_stream_client_adjust_jitterbuffer sc).max_jitter_latency = 190) ∧
    (sc.max_jitter_latency - 10 ≤ (em_stream_client_adjust_jitterbuffer sc).max_jitter_latency) ∧
    ((em_stream_client_get_average_frame_latency sc).2.latency_collection = []) ∧
    ((em_stream_client_get_average_frame_latency sc).1 =
      ratTruncInt (calculate_average_of_gint64 sc.latency_collection)) := by
  refine ⟨rfl, ?_, ?_, rfl, rfl⟩
  · intro h1 h2
    have h : time_ns_to_ms_f 50000000 * (3 / 2 : Rat) = 75 := by
      norm_num [time_ns_to_ms_f]
    simp only [em_stream_client_adjust_jitterbuffer, h1, h2, h]
    have h75 : ratTruncInt 75 = 75 := by simp [ratTruncInt]
    rw [h75]
    decide
  · simp only [em_stream_client_adjust_jitterbuffer]
    exact le_max_left _ _

/-- Witness for C4 at the claim's concrete numbers: previous 200 ms,
mean 50 ms (50000000 ns), result 190 ms. -/
theorem adjust_jitterbuffer_decay_bounded_growth_immediate_witness :
    (em_stream_client_adjust_jitterbuffer
      { em_stream_client_init 0 with
          max_jitter_latency := 200
          average_latency := 50000000 }).max_jitter_latency = 190 :=
  ((adjust_jitterbuffer_decay_bounded_growth_immediate
    { em_stream_client_init 0 with
        max_jitter_latency := 200
        average_latency := 50000000 }).2.1) rfl rfl

/-! ## Claim C6 - fallback clock offset and zero-offset handling -/

/-- Claim C6: pulling a sample whose DownMessage carries full frame data,
when the reported clock offset (from the data channel) is zero, the offset
actually used is the fallback
`(local receive time - local pipeline time) - remote embedded pipeline offset`;
and whenever the resulting offset is still zero the server-side
timestamps of the output sample are left unset (`none`) instead of being
computed with a zero offset. -/
theorem try_pull_sample_fallback_clock_offset
    (decode : List Nat → Option DownMessage) (sc : EmStreamClient) (env : PullEnv)
    (s : StoredSample) (msg : DownMessage)
    (hs : sc.sample = some s)
    (hread : (read_down_message_from_custom_meta decode s.buffer).1 = some msg)
    (hframe : msg.has_frame_data = true)
    (hv0 : msg.frame_data.has_P_localSpace_view0 = true)
    (hv1 : msg.frame_data.has_P_localSpace_view1 = true) :
    ((em_stream_client_try_pull_sample decode sc env).1.map
        (fun r => (r.server_render_begin_time, r.server_push_time))) =
      some
        (if (if env.server_clock_offset = 0 then
              (env.now_ns - env.current_time) -
                msg.frame_data.server_system_clock_pipeline_clock_offset
            else env.server_clock_offset) ≠ 0 then
          some ((if env.server_clock_offset = 0 then
              (env.now_ns - env.current_time) -
                msg.frame_data.server_system_clock_pipeline_clock_offset
            else env.server_clock_offset) + msg.frame_data.render_begin_time)
         else none,
         if (if env.server_clock_offset = 0 then
              (env.now_ns - env.current_time) -
                msg.frame_data.server_system_clock_pipeline_clock_offset
            else env.server_clock_offset) ≠ 0 then
          some ((if env.server_clock_offset = 0 then
              (env.now_ns - env.current_time) -
                msg.frame_data.server_system_clock_pipeline_clock_offset
            else env.server_clock_offset) + msg.frame_data.frame_push_time)
         else none) := by
  simp [em_stream_client_try_pull_sample, hs, hread, hframe, hv0, hv1]

/-- A DownMessage with full frame data, remote embedded pipeline offset 6. -/
def c6_msg : DownMessage :=
  { has_frame_data := true
    frame_data :=
      { em_proto_FrameData_init_default with
        has_P_localSpace_view0 := true
        has_P_localSpace_view1 := true
        render_begin_time := 100
        frame_push_time := 200
        server_system_clock_pipeline_clock_offset := 6 } }

def c6_decode : List Nat → Option DownMessage := fun _ => some c6_msg

def c6_buffer : GstBufferClient := ⟨some ⟨[0], 50⟩⟩

def c6_sc : EmStreamClient :=
  { em_stream_client_init 0 with sample := some ⟨c6_buffer⟩ }

/-- Reported offset 0; fallback `(10 - 4) - 6 = 0`: still zero. -/
def c6_env : PullEnv := ⟨10, 4, 0, 7⟩

/-- Witness for C6: with reported offset 0 and a fallback that also comes
out 0, both server timestamps are left unset. -/
theorem try_pull_sample_fallback_clock_offset_witness :
    ((em_stream_client_try_pull_sample c6_decode c6_sc c6_env).1.map
        (fun r => (r.server_render_begin_time, r.server_push_time))) =
      some (none, none) :=
  (try_pull_sample_fallback_clock_offset c6_decode c6_sc c6_env ⟨c6_buffer⟩ c6_msg rfl rfl
      rfl rfl rfl).trans (by decide)

/-! ## Claim C1 - read-side fallback is unbounded, not 10-frame/1-second -/

/-- A frame-0 DownMessage with full frame data and distinctive poses. -/
def c1_msg0 : DownMessage :=
  { has_frame_data := true
    frame_data :=
      { em_proto_FrameData_init_default with
        frame_sequence_id := 1
        has_P_localSpace_view0 := true
        P_localSpace_view0 :=
          { em_proto_Pose_init_default with has_position := true, position := ⟨5, 6, 7⟩ }
        has_P_localSpace_view1 := true
        P_localSpace_view1 :=
          { em_proto_Pose_init_default with has_position := true, position := ⟨8, 9, 10⟩ } } }

def c1_decode : List Nat → Option DownMessage :=
  fun b => if b = [1] then some c1_msg0 else none

def c1_env (t : Int) : PullEnv := ⟨t, t, 1, t⟩

/-- State after frame 0: a media unit carrying `c1_msg0` was decoded and
pulled successfully. -/
def c1_after_frame0 : EmStreamClient :=
  (em_stream_client_try_pull_sample c1_decode
    (on_new_sample_cb (em_stream_client_init 0) ⟨some ⟨[1], 100⟩⟩ 10) (c1_env 10)).2

/-- Deliver one media unit with NO attached Down message, then pull it. -/
def c1_pull_no_meta (sc : EmStreamClient) (t : Int) : Option EmSample × EmStreamClient :=
  em_stream_client_try_pull_sample c1_decode (on_new_sample_cb sc ⟨none⟩ t) (c1_env t)

/-- State after `n` consecutive no-Down-message frames following frame 0. -/
def c1_state : Nat → EmStreamClient
  | 0 => c1_after_frame0
  | n + 1 => (c1_pull_no_meta (c1_state n) (11 + n)).2

/-- The sample produced by no-Down-message frame `k + 1` (frames counted
from 1 after the successful frame 0). -/
def c1_frame_result (k : Nat) : Option EmSample :=
  (c1_pull_no_meta (c1_state k) (11 + k)).1

/-- Claim C1, counterexample: after a successful frame 0, frame 1 with no
Down message reuses frame 0's pose (as the claim says), but frame 10 - the
10th consecutive frame without a Down message, beyond the claimed
10-frame/1-second bound - ALSO reports the pose as present, still reusing
frame 0's pose, instead of reporting pose-absent. -/
theorem em_stream_client_reuses_pose_beyond_ten_frames :
    (c1_frame_result 0).map (fun r => (r.have_poses, r.pose0)) =
      some (true, pose_to_openxr c1_msg0.frame_data.P_localSpace_view0) ∧
    (c1_frame_result 9).map (fun r => (r.have_poses, r.pose0)) =
      some (true, pose_to_openxr c1_msg0.frame_data.P_localSpace_view0) := by decide

/-- Claim C1, amended: when a pulled media unit carries no readable Down
message, the client reuses the most recent successfully read Down message
with NO bound on consecutive frames or elapsed time: from ANY state whose
last Down message has full frame data - regardless of the skipped-frame
counter or any timestamps - the pulled sample reports the stale pose as
present, and the stored last message is unchanged, so the reuse continues
indefinitely.  Pose data is reported absent only when the reused message
itself lacks full frame data. -/
theorem em_stream_client_fallback_reuse_unbounded
    (decode : List Nat → Option DownMessage) (sc : EmStreamClient) (env : PullEnv)
    (buffer : GstBufferClient) (t : Int)
    (hmeta : (read_down_message_from_custom_meta decode buffer).1 = none)
    (hframe : sc.last_down_msg.has_frame_data = true)
    (hv0 : sc.last_down_msg.frame_data.has_P_localSpace_view0 = true)
    (hv1 : sc.last_down_msg.frame_data.has_P_localSpace_view1 = true) :
    ((em_stream_client_try_pull_sample decode (on_new_sample_cb sc buffer t) env).1.map
        (fun r => (r.have_poses, r.pose0, r.pose1))) =
      some (true, pose_to_openxr sc.last_down_msg.frame_data.P_localSpace_view0,
        pose_to_openxr sc.last_down_msg.frame_data.P_localSpace_view1) ∧
    (em_stream_client_try_pull_sample decode (on_new_sample_cb sc buffer t) env).2.last_down_msg =
      sc.last_down_msg := by
  simp [on_new_sample_cb, em_stream_client_try_pull_sample, hmeta, hframe, hv0, hv1]

/-- A state far beyond any plausible bound: 42 frames already skipped. -/
def c1_witness_sc : EmStreamClient :=
  { em_stream_client_init 0 with
      skipped_frames := 42
      last_down_msg := c1_msg0 }

/-- Witness for the amended C1 at a concrete state with a large skipped
count: pose still reported present from the stale message. -/
theorem em_stream_client_fallback_reuse_unbounded_witness :
    ((em_stream_client_try_pull_sample c1_decode
        (on_new_sample_cb c1_witness_sc ⟨none⟩ 5) (c1_env 5)).1.map
      (fun r => (r.have_poses, r.pose0, r.pose1))) =
      some (true, pose_to_openxr c1_msg0.frame_data.P_localSpace_view0,
        pose_to_openxr c1_msg0.frame_data.P_localSpace_view1) ∧
    (em_stream_client_try_pull_sample c1_decode
        (on_new_sample_cb c1_witness_sc ⟨none⟩ 5) (c1_env 5)).2.last_down_msg = c1_msg0 :=
  em_stream_client_fallback_reuse_unbounded c1_decode c1_witness_sc (c1_env 5) ⟨none⟩ 5
    rfl rfl rfl rfl

/-! ## Claim C7 - entering Connected -/

theorem em_conn_update_status_status (c : EmConnection) (st : EmStatus) :
    (em_conn_update_status c st).status = st := by
  unfold em_conn_update_status
  split
  next h => exact h.symm
  next => rfl

theorem em_conn_update_status_datachannel (c : EmConnection) (st : EmStatus) :
    (em_conn_update_status c st).datachannel = c.datachannel := by
  unfold em_conn_update_status
  split <;> rfl

theorem em_conn_disconnect_internal_status (c : EmConnection) (st : EmStatus) :
    (em_conn_disconnect_internal c st).1.status = st := by
  simp [em_conn_disconnect_internal, em_conn_update_status_status]

theorem em_connection_connect_status (c : EmConnection) :
    (em_connection_connect c).1.status = EmStatus.EM_STATUS_CONNECTING := by
  simp [em_connection_connect, em_conn_connect_internal, em_conn_update_status_status]

theorem em_conn_websocket_connected_cb_success_webrtc_status (p : Bool) (c : EmConnection) :
    (em_conn_websocket_connected_cb_success true p c).1.status =
      (if p then EmStatus.EM_STATUS_NEGOTIATING else EmStatus.EM_STATUS_IDLE_NOT_CONNECTED) := by
  cases p <;>
    simp [em_conn_websocket_connected_cb_success, em_connection_set_pipeline,
      em_connection_disconnect, em_conn_disconnect_internal_status, em_conn_update_status_status]

/-- Claim C7, counterexample: in the build without USE_WEBRTC (the build
configured by the repository's CMake files, which never define
USE_WEBRTC), the websocket-connected callback sets the status directly to
EM_STATUS_CONNECTED - so transport-level connection alone yields
Connected, before any application-level handshake message has flowed. -/
theorem websocket_connect_sets_connected_without_handshake :
    (conn_run false conn_init [ConnEvent.callConnect, ConnEvent.wsConnectSuccess true]).map
        (fun s => (s.conn.status, s.handshake_flowed)) =
      some (EmStatus.EM_STATUS_CONNECTED, false) := by decide

/-- Claim C7, amended: in the USE_WEBRTC build, every reachable state of
the connection machine that is in EM_STATUS_CONNECTED has seen at least
one application-level handshake message (an SDP offer processed and
answered) and has a usable data channel; only the on-data-channel
callback enters Connected.  In the build without USE_WEBRTC, Connected is
entered directly upon the websocket transport connecting (see the
counterexample). -/
theorem connected_requires_handshake_under_webrtc {s : ConnSM}
    (hr : ConnReachable true s) :
    s.conn.status = EmStatus.EM_STATUS_CONNECTED →
      s.handshake_flowed = true ∧ s.conn.datachannel = true := by
  induction hr with
  | init => intro hc; exact absurd hc (by decide)
  | step s e s2 hr hstep ih =>
    intro hc
    cases e with
    | callConnect =>
      simp only [conn_step] at hstep
      injection hstep with h
      subst h
      have hc2 : (em_connection_connect s.conn).1.status = EmStatus.EM_STATUS_CONNECTED := hc
      rw [em_connection_connect_status] at hc2
      exact absurd hc2 (by decide)
    | wsConnectSuccess p =>
      simp only [conn_step] at hstep
      split at hstep
      · injection hstep with h
        subst h
        have hc2 : (em_conn_websocket_connected_cb_success true p s.conn).1.status =
            EmStatus.EM_STATUS_CONNECTED := hc
        rw [em_conn_websocket_connected_cb_success_webrtc_status] at hc2
        cases p <;> exact absurd hc2 (by decide)
      · exact absurd hstep (by simp)
    | wsConnectFailure =>
      simp only [conn_step] at hstep
      split at hstep
      · injection hstep with h
        subst h
        have hc2 : (em_conn_websocket_connected_cb_failure s.conn).1.status =
            EmStatus.EM_STATUS_CONNECTED := hc
        rw [show (em_conn_websocket_connected_cb_failure s.conn).1 =
            em_conn_update_status s.conn .EM_STATUS_WEBSOCKET_FAILED from rfl,
          em_conn_update_status_status] at hc2
        exact absurd hc2 (by decide)
      · exact absurd hstep (by simp)
    | wsOfferMessage =>
      simp only [conn_step] at hstep
      split at hstep
      · injection hstep with h
        subst h
        have hc2 : s.conn.status = EmStatus.EM_STATUS_CONNECTED := hc
        exact ⟨rfl, (ih hc2).2⟩
      · exact absurd hstep (by simp)
    | onDataChannel =>
      simp only [conn_step] at hstep
      split at hstep
      next hg =>
        injection hstep with h
        subst h
        refine ⟨hg.2.2.1, ?_⟩
        show (em_conn_webrtc_on_data_channel_cb s.conn).1.datachannel = true
        rw [show (em_conn_webrtc_on_data_channel_cb s.conn).1 =
            em_conn_update_status { s.conn with datachannel := true }
              .EM_STATUS_CONNECTED from rfl,
          em_conn_update_status_datachannel]
      next => exact absurd hstep (by simp)
    | dataChannelError =>
      simp only [conn_step] at hstep
      split at hstep
      · injection hstep with h
        subst h
        have hc2 : (em_conn_data_channel_error_cb s.conn).1.status =
            EmStatus.EM_STATUS_CONNECTED := hc
        rw [show (em_conn_data_channel_error_cb s.conn).1 =
            (em_conn_disconnect_internal s.conn .EM_STATUS_DISCONNECTED_ERROR).1 from rfl,
          em_conn_disconnect_internal_status] at hc2
        exact absurd hc2 (by decide)
      · exact absurd hstep (by simp)
    | dataChannelClose =>
      simp only [conn_step] at hstep
      split at hstep
      · injection hstep with h
        subst h
        have hc2 : (em_conn_data_channel_close_cb s.conn).1.status =
            EmStatus.EM_STATUS_CONNECTED := hc
        rw [show (em_conn_data_channel_close_cb s.conn).1 =
            (em_conn_disconnect_internal s.conn .EM_STATUS_DISCONNECTED_REMOTE_CLOSE).1 from rfl,
          em_conn_disconnect_internal_status] at hc2
        exact absurd hc2 (by decide)
      · exact absurd hstep (by simp)
    | callDisconnect =>
      simp only [conn_step] at hstep
      injection hstep with h
      subst h
      have hc2 : (em_connection_disconnect s.conn).1.status =
          EmStatus.EM_STATUS_CONNECTED := hc
      rw [show (em_connection_disconnect s.conn).1 =
          (em_conn_disconnect_internal s.conn .EM_STATUS_IDLE_NOT_CONNECTED).1 from rfl,
        em_conn_disconnect_internal_status] at hc2
      exact absurd hc2 (by decide)

/-- After `connect()` was called. -/
def c7_s1 : ConnSM :=
  ⟨⟨true, false, false, false, false, .EM_STATUS_CONNECTING⟩, true, false⟩

/-- After the websocket connected and the handler supplied a pipeline. -/
def c7_s2 : ConnSM :=
  ⟨⟨true, true, true, true, false, .EM_STATUS_NEGOTIATING⟩, false, false⟩

/-- After the SDP offer was processed (answer sent). -/
def c7_s3 : ConnSM :=
  ⟨⟨true, true, true, true, false, .EM_STATUS_NEGOTIATING⟩, false, true⟩

/-- After the data channel appeared: Connected. -/
def c7_s4 : ConnSM :=
  ⟨⟨true, true, true, true, true, .EM_STATUS_CONNECTED⟩, false, true⟩

/-- Witness for the amended C7 at a concrete reachable Connected state. -/
theorem connected_requires_handshake_under_webrtc_witness :
    c7_s4.conn.status = EmStatus.EM_STATUS_CONNECTED ∧
    c7_s4.handshake_flowed = true ∧ c7_s4.conn.datachannel = true := by
  have h0 : ConnReachable true conn_init := ConnReachable.init
  have h1 : ConnReachable true c7_s1 :=
    ConnReachable.step conn_init ConnEvent.callConnect c7_s1 h0 (by decide)
  have h2 : ConnReachable true c7_s2 :=
    ConnReachable.step c7_s1 (ConnEvent.wsConnectSuccess true) c7_s2 h1 (by decide)
  have h3 : ConnReachable true c7_s3 :=
    ConnReachable.step c7_s2 ConnEvent.wsOfferMessage c7_s3 h2 (by decide)
  have h4 : ConnReachable true c7_s4 :=
    ConnReachable.step c7_s3 ConnEvent.onDataChannel c7_s4 h3 (by decide)
  exact ⟨rfl, connected_requires_handshake_under_webrtc h4 rfl⟩
